import Mathlib

/-!
Shallow embedding of the ownership-modeling core of `include/wasm.hh`
(the WebAssembly C++ API): the generic owning vector `vec<T>` with its
two element-kind trait instantiations (plain values and exclusively
owned pointers), the element proxy for pointer-kind slots, and the
tagged runtime value `Val`.

Modelling conventions:
 * heap objects are identified by addresses (`Addr := Nat`); an owned
   `Ref*` handle is an `Option Addr` (`none` = `nullptr`);
 * `delete` is recorded in an explicit deletion log (`List Addr`);
 * a default-initialized array cell (`new T[n]` performs default
   initialization, which leaves scalars and raw pointers indeterminate)
   is modelled as `none` in `Option`-wrapped cells;
 * a C `assert` is modelled by returning `none` from the operation
   (the assertion fired; no object is produced);
 * `size_t` is `Nat`; `SIZE_MAX` is the literal `invalid_size` below;
   an allocation of `SIZE_MAX` elements (each at least one byte) can
   never succeed in a 2^64-byte address space, so the allocation
   oracle refuses it.
-/

namespace Wasm

/-- Heap addresses standing in for `Ref*` pointers. -/
abbrev Addr := Nat

/-- `SIZE_MAX` on a 64-bit platform: `vec<T>::invalid_size`. -/
def invalid_size : Nat := 18446744073709551615

/-! ## Value kinds: `enum ValKind { I32, I64, F32, F64, ANYREF, FUNCREF }` -/

inductive ValKind
  | I32
  | I64
  | F32
  | F64
  | ANYREF
  | FUNCREF
deriving DecidableEq, Repr

/-- The numeric value of each `ValKind` enumerator, in declaration order. -/
def ValKind.toNat : ValKind → Nat
  | .I32 => 0
  | .I64 => 1
  | .F32 => 2
  | .F64 => 3
  | .ANYREF => 4
  | .FUNCREF => 5

/-- `inline bool is_num(ValKind k) { return k < ANYREF; }` -/
def is_num (k : ValKind) : Bool := k.toNat < ValKind.ANYREF.toNat

/-- `inline bool is_ref(ValKind k) { return k >= ANYREF; }` -/
def is_ref (k : ValKind) : Bool := ValKind.ANYREF.toNat ≤ k.toNat

/-! ## The payload union of `Val`

`union impl { int32_t i32; int64_t i64; float32_t f32; float64_t f64; Ref* ref; }`.
A union is modelled by its active member.  Integer payloads are stored and
returned verbatim (no arithmetic is performed on them), so they are plain
`Int`; float payloads are opaque bit patterns (`Nat`), since the code never
computes with them either. -/

inductive ValImpl
  | i32 (x : Int)
  | i64 (x : Int)
  | f32 (z : Nat)
  | f64 (z : Nat)
  | ref (r : Option Addr)
deriving DecidableEq, Repr

/-- Reading the union member `impl_.ref`; defined when `ref` is the active
member (any other case is undefined behaviour in the source and never
arises on reachable states). -/
def ValImpl.refRead : ValImpl → Option Addr
  | .ref r => r
  | _ => none

/-! ## `class Val` -/

structure Val where
  kind_ : ValKind
  impl_ : ValImpl
deriving DecidableEq, Repr

/-- `Val() : kind_(ANYREF) { impl_.ref = nullptr; }` -/
def Val.default : Val := ⟨.ANYREF, .ref none⟩

/-- `Val(int32_t i) : kind_(I32) { impl_.i32 = i; }` -/
def Val.ofI32 (i : Int) : Val := ⟨.I32, .i32 i⟩

/-- `Val(int64_t i) : kind_(I64) { impl_.i64 = i; }` -/
def Val.ofI64 (i : Int) : Val := ⟨.I64, .i64 i⟩

/-- `Val(float32_t z) : kind_(F32) { impl_.f32 = z; }` -/
def Val.ofF32 (z : Nat) : Val := ⟨.F32, .f32 z⟩

/-- `Val(float64_t z) : kind_(F64) { impl_.f64 = z; }` -/
def Val.ofF64 (z : Nat) : Val := ⟨.F64, .f64 z⟩

/-- `Val(own<Ref*>&& r) : kind_(ANYREF) { impl_.ref = r.release(); }` -/
def Val.ofRef (r : Option Addr) : Val := ⟨.ANYREF, .ref r⟩

/-- `Val(Val&& that) : kind_(that.kind_), impl_(that.impl_)
    { if (is_ref(kind_)) that.impl_.ref = nullptr; }`
Returns the constructed value and the state of `that` afterwards. -/
def Val.moveCtor (that : Val) : Val × Val :=
  let v : Val := ⟨that.kind_, that.impl_⟩
  if is_ref v.kind_ then (v, ⟨that.kind_, .ref none⟩) else (v, that)

/-- `void reset() { if (is_ref(kind_) && impl_.ref) { delete impl_.ref;
    impl_.ref = nullptr; } }`
Returns the new state and the list of deleted addresses. -/
def Val.reset (v : Val) : Val × List Addr :=
  match v.impl_ with
  | .ref (some a) =>
      if is_ref v.kind_ then (⟨v.kind_, .ref none⟩, [a]) else (v, [])
  | _ => (v, [])

/-- `~Val() { reset(); }` — the addresses the destructor deletes. -/
def Val.destruct (v : Val) : List Addr := (Val.reset v).2

/-- `void reset(Val& that) { reset(); kind_ = that.kind_; impl_ = that.impl_;
    if (is_ref(kind_)) that.impl_.ref = nullptr; }`
Also the body of move assignment `operator=(Val&&)`.
Returns (state of `this`, state of `that`, deleted addresses). -/
def Val.resetFrom (v that : Val) : Val × Val × List Addr :=
  let del := (Val.reset v).2
  let v2 : Val := ⟨that.kind_, that.impl_⟩
  if is_ref v2.kind_ then (v2, ⟨that.kind_, .ref none⟩, del)
  else (v2, that, del)

/-- `auto kind() const -> ValKind { return kind_; }` -/
def Val.kind (v : Val) : ValKind := v.kind_

/-- `auto i32() const -> int32_t { assert(kind_ == I32); return impl_.i32; }`
`none` models the assertion firing (or an undefined union read). -/
def Val.i32 (v : Val) : Option Int :=
  if v.kind_ = ValKind.I32 then
    match v.impl_ with
    | .i32 x => some x
    | _ => none
  else none

/-- `auto i64() const -> int64_t { assert(kind_ == I64); return impl_.i64; }` -/
def Val.i64 (v : Val) : Option Int :=
  if v.kind_ = ValKind.I64 then
    match v.impl_ with
    | .i64 x => some x
    | _ => none
  else none

/-- `auto f32() const -> float32_t { assert(kind_ == F32); return impl_.f32; }` -/
def Val.f32 (v : Val) : Option Nat :=
  if v.kind_ = ValKind.F32 then
    match v.impl_ with
    | .f32 z => some z
    | _ => none
  else none

/-- `auto f64() const -> float64_t { assert(kind_ == F64); return impl_.f64; }` -/
def Val.f64 (v : Val) : Option Nat :=
  if v.kind_ = ValKind.F64 then
    match v.impl_ with
    | .f64 z => some z
    | _ => none
  else none

/-- `auto ref() const -> Ref* { assert(is_ref(kind_)); return impl_.ref; }`
The outer `Option` is the assertion; the inner `Option Addr` is the
returned (possibly null) pointer. -/
def Val.ref (v : Val) : Option (Option Addr) :=
  if is_ref v.kind_ then
    match v.impl_ with
    | .ref r => some r
    | _ => none
  else none

/-- `auto release_ref() -> own<Ref*> { assert(is_ref(kind_));
    auto ref = impl_.ref; ref = nullptr; return own<Ref*>(ref); }`
Note the source nulls the local `ref`, not `impl_.ref`.  Returns the
owned handle handed to the caller together with the state of the `Val`
afterwards; `none` models the assertion firing. -/
def Val.release_ref (v : Val) : Option (Option Addr × Val) :=
  if is_ref v.kind_ then
    let r := v.impl_.refRead
    let r := (none : Option Addr)
    some (r, v)
  else none

/-! ## `template<class T> class vec`

The template is shared between the two element kinds; the element-kind
specific trait operations (`vec_traits<T>` vs `vec_traits<T*>`) are given
separately below.  A cell of the backing block is `Option α`: `none` is a
default-initialized (indeterminate) cell — `new T[n]` performs default
initialization, which leaves scalars and raw pointers indeterminate —
and `some a` is a cell holding the element value `a`.  The block itself
is `Option (List (Option α))`: `none` is a null `data_` pointer. -/

structure vec (α : Type) where
  size_ : Nat
  data_ : Option (List (Option α))
deriving DecidableEq, Repr

/-- `new(std::nothrow) T[n]` for `n > 0`: either a block of `n`
default-initialized cells, or `none` on exhaustion.  The oracle `ok`
models nondeterministic exhaustion; an allocation of `SIZE_MAX` elements
(each at least one byte) can never succeed in the machine's address
space, hence the `n < invalid_size` bound. -/
def vec.allocate (α : Type) (ok : Bool) (n : Nat) : Option (List (Option α)) :=
  if ok = true ∧ n < invalid_size then some (List.replicate n none) else none

/-- `vec(size_t size, T* data) : size_(size), data_(data) {
      assert(!!size_ == !!data_ || size_ == invalid_size); }`
`none` models the assertion firing. -/
def vec.mkChecked (size : Nat) (data : Option (List (Option α))) : Option (vec α) :=
  if (size ≠ 0 ↔ data.isSome = true) ∨ size = invalid_size then some ⟨size, data⟩
  else none

/-- The raw field state `{size_, data_}` the delegating constructor
establishes; this is what an `NDEBUG` build keeps even when the
assertion condition is violated. -/
def vec.mkRaw (size : Nat) (data : Option (List (Option α))) : vec α := ⟨size, data⟩

/-- `vec(size_t size) : vec(size, size ? new(std::nothrow) T[size] : nullptr) {}` -/
def vec.mkAlloc (ok : Bool) (size : Nat) : Option (vec α) :=
  vec.mkChecked size (if size ≠ 0 then vec.allocate α ok size else none)

/-- `operator bool() const { return bool(size_ != invalid_size); }` -/
def vec.valid (v : vec α) : Bool := v.size_ ≠ invalid_size

/-- `auto size() const -> size_t { return size_; }` -/
def vec.size (v : vec α) : Nat := v.size_

/-- In-place mutation of the backing block (what a trait operation does
through `v.data_.get()`); a null block stays null. -/
def vec.mapData (v : vec α) (f : List (Option α) → List (Option α)) : vec α :=
  ⟨v.size_, v.data_.map f⟩

/-- Reading slot `i` of the backing block: `data_[i]`. -/
def vec.slot (v : vec α) (i : Nat) : Option (Option α) :=
  v.data_.bind (fun l => l.get? i)

/-- `static auto invalid() -> vec { return vec(invalid_size, nullptr); }`
(The constructor's assertion passes through its second disjunct.) -/
def vec.invalid (α : Type) : vec α := ⟨invalid_size, none⟩

/-- `template<class U> vec(vec<U>&& that) : vec(that.size_, that.data_.release()) {}`
Returns the (assertion-checked) constructed vector together with the
state of `that` afterwards: its `data_` is released (null) while its
`size_` is left untouched. -/
def vec.moveCtor (that : vec α) : Option (vec α) × vec α :=
  (vec.mkChecked that.size_ that.data_, ⟨that.size_, none⟩)

/-- `void reset(vec& that) { size_ = that.size_; data_.reset(that.data_.release()); }`
Also the body of move assignment `operator=(vec&&)`.  Returns (state of
`this`, state of `that`); `this`'s old block is freed by
`unique_ptr::reset`. -/
def vec.resetFrom (_v that : vec α) : vec α × vec α :=
  (⟨that.size_, that.data_⟩, ⟨that.size_, none⟩)

/-- `static auto adopt(size_t size, T data[]) -> vec { return vec(size, data); }` -/
def vec.adopt (size : Nat) (data : Option (List (Option α))) : Option (vec α) :=
  vec.mkChecked size data

/-- The data-model invariant from the spec: `size == 0` iff `data` is
empty, except in the invalid sentinel state, where `data` is empty while
`size` holds the sentinel. -/
def vec.inv (v : vec α) : Prop :=
  if v.size_ = invalid_size then v.data_.isNone = true
  else (v.size_ = 0 ↔ v.data_.isNone = true)

instance vec.invDecidable {α : Type} (v : vec α) : Decidable (vec.inv v) := by
  unfold vec.inv
  infer_instance

/-! ### Plain-value element kind: `vec_traits<T>` -/

/-- `make_uninitialized` for the plain element kind:
`auto v = vec(size); if (v) vec_traits<T>::construct(size, v.data_.get());`
where `vec_traits<T>::construct` is a no-op, so this is just `vec(size)`. -/
def vec.make_uninitialized (ok : Bool) (size : Nat) : Option (vec α) :=
  vec.mkAlloc ok size

/-- `static auto make(size_t size, own<T> init[]) -> vec`:
`auto v = vec(size); if (v) vec_traits<T>::move(size, v.data_.get(), init);`
where the plain trait `move` installs `init[i]` into slot `i`
(`data[i].reset(init[i])`).  The caller supplies at least `size`
elements. -/
def vec.make (ok : Bool) (size : Nat) (init : List α) : Option (vec α) :=
  (vec.mkAlloc ok size).map (fun v =>
    if v.valid then v.mapData (fun _ => (init.take size).map some) else v)

/-- `auto copy() const -> vec`:
`auto v = vec(size_); if (v) vec_traits<T>::copy(size_, v.data_.get(), data_.get());`
where the plain trait `copy` performs `data[i] = init[i]` for every
`i < size` (no null-slot guard). -/
def vec.copy (ok : Bool) (v : vec α) : Option (vec α) :=
  (vec.mkAlloc ok v.size_).map (fun w =>
    if w.valid then
      match v.data_ with
      | some src => w.mapData (fun _ => src)
      | none => w
    else w)

/-! ### Owned-pointer element kind: `vec_traits<T*>`

The instantiation of the template at a pointer element type `T*`: an
element is an `Option Addr` (`none` = `nullptr`), so a cell of the block
is `Option (Option Addr)` — `none` still meaning default-initialized
(indeterminate). -/

/-- A pointer-element value: a possibly-null `T*`. -/
abbrev Ptr := Option Addr

/-- A cell of a pointer-kind block: indeterminate, or a pointer value. -/
abbrev RCell := Option Ptr

/-- `vec<T*>` — the same template instantiated at a pointer element type. -/
abbrev vecPtr := vec Ptr

/-- The heap of `Ref` objects: a fresh-address counter and the live
objects with their (opaque) contents. -/
structure Heap where
  next : Addr
  objs : List (Addr × Nat)
deriving DecidableEq, Repr

/-- Allocating a fresh object with content `c`. -/
def Heap.alloc (h : Heap) (c : Nat) : Addr × Heap :=
  (h.next, ⟨h.next + 1, (h.next, c) :: h.objs⟩)

/-- The content of the live object at `a`, if any. -/
def Heap.lookup (h : Heap) (a : Addr) : Option Nat :=
  (h.objs.find? (fun p => p.1 = a)).map (fun p => p.2)

/-- `init[i]->copy()` — the element's polymorphic deep copy: allocates a
fresh object with the same content.  Copying a dead object is undefined
behaviour; it returns a null handle here. -/
def Heap.copyObj (h : Heap) (a : Addr) : Ptr × Heap :=
  match h.lookup a with
  | some c =>
      let p := h.alloc c
      (some p.1, p.2)
  | none => (none, h)

/-- `vec_traits<T*>::construct`: `for (i < size) data[i] = nullptr;` -/
def vecPtr.construct (l : List RCell) : List RCell :=
  l.map (fun _ => some none)

/-- `make_uninitialized` for the pointer element kind:
`auto v = vec(size); if (v) vec_traits<T*>::construct(size, v.data_.get());` -/
def vecPtr.make_uninitialized (ok : Bool) (size : Nat) : Option vecPtr :=
  (vec.mkAlloc ok size).map (fun v =>
    if v.valid then v.mapData vecPtr.construct else v)

/-- `vec_traits<T*>::destruct`: `for (i < size) if (data[i]) delete data[i];`
run by `~vec` when `data_` is non-null; returns the deleted addresses.
(Reading an indeterminate cell is undefined behaviour; it deletes
nothing here.) -/
def vecPtr.destruct (v : vecPtr) : List Addr :=
  match v.data_ with
  | none => []
  | some cells => cells.filterMap (fun c =>
      match c with
      | some (some a) => some a
      | _ => none)

/-- `vec_traits<T*>::copy(size, data, init)`:
`for (i < size) if (init[i]) data[i] = init[i]->copy().release();`
`dest` is the destination block as the private constructor left it
(default-initialized cells); an `init` cell that is null — or
indeterminate, an undefined read — leaves the destination cell alone. -/
def vecPtr.traitsCopy (h : Heap) : List RCell → List RCell → List RCell × Heap
  | d :: ds, i :: is =>
      match i with
      | some (some a) =>
          let p := Heap.copyObj h a
          let rest := vecPtr.traitsCopy p.2 ds is
          (some p.1 :: rest.1, rest.2)
      | _ =>
          let rest := vecPtr.traitsCopy h ds is
          (d :: rest.1, rest.2)
  | ds, _ => (ds, h)

/-- `copy()` for the pointer element kind:
`auto v = vec(size_); if (v) vec_traits<T*>::copy(size_, v.data_.get(), data_.get());` -/
def vecPtr.copy (ok : Bool) (h : Heap) (v : vecPtr) : Option (vecPtr × Heap) :=
  (vec.mkAlloc ok v.size_).map (fun w =>
    if w.valid then
      match w.data_, v.data_ with
      | some dcells, some icells =>
          let p := vecPtr.traitsCopy h dcells icells
          (⟨w.size_, some p.1⟩, p.2)
      | _, _ => (w, h)
    else (w, h))

/-! ### The element proxy: `vec_traits<T*>::proxy`

`operator[]` returns `proxy(data_[i])`, a reference to one slot.  The
proxy operations below act on a vector together with the slot index the
proxy is bound to; the slot must be an initialized cell (reading an
indeterminate cell is undefined behaviour, modelled by `none`). -/

/-- `void reset(own<T*>&& val) { if (elem_) delete elem_; elem_ = val.release(); }`
Also the body of `operator=(own<T*>&&)`.  Returns the vector afterwards
and the deleted addresses. -/
def vecPtr.proxyResetAt (v : vecPtr) (i : Nat) (val : Ptr) :
    Option (vecPtr × List Addr) :=
  match v.data_ with
  | some cells =>
      match cells.get? i with
      | some (some old) =>
          some (⟨v.size_, some (cells.set i (some val))⟩,
            match old with
            | some a => [a]
            | none => [])
      | _ => none
  | none => none

/-- `auto release() -> T* { auto elem = elem_; elem_ = nullptr; return elem; }`
Returns the raw pointer handed back and the vector afterwards; deletes
nothing. -/
def vecPtr.proxyReleaseAt (v : vecPtr) (i : Nat) : Option (Ptr × vecPtr) :=
  match v.data_ with
  | some cells =>
      match cells.get? i with
      | some (some old) =>
          some (old, ⟨v.size_, some (cells.set i (some none))⟩)
      | _ => none
  | none => none

/-- `auto move() -> own<T*> { return make_own(release()); }` -/
def vecPtr.proxyMoveAt (v : vecPtr) (i : Nat) : Option (Ptr × vecPtr) :=
  vecPtr.proxyReleaseAt v i

/-! ## Theorems -/

/-- Any vector the allocating private constructor `vec(size_t)` hands
back (its assertion having passed) satisfies the data-model invariant. -/
theorem vec.inv_of_mkAlloc {α : Type} {ok : Bool} {n : Nat} {v : vec α}
    (h : vec.mkAlloc ok n = some v) : vec.inv v := by
  unfold vec.mkAlloc vec.mkChecked vec.allocate at h
  by_cases hn : n = 0
  · subst hn
    simp [invalid_size] at h
    subst h
    simp [vec.inv, invalid_size]
  · by_cases hok : ok = true ∧ n < invalid_size
    · simp [hn, hok] at h
      subst h
      have hs : n ≠ invalid_size := Nat.ne_of_lt hok.2
      simp [vec.inv, hn, hs]
    · by_cases hs : n = invalid_size
      · subst hs
        simp [hn, hok] at h
        subst h
        simp [vec.inv]
      · simp [hn, hok, hs] at h

/-- A trait operation mutating the backing block in place preserves the
invariant (it changes neither `size_` nor the nullity of `data_`). -/
theorem vec.inv_mapData {α : Type} {v : vec α}
    (f : List (Option α) → List (Option α)) (h : vec.inv v) :
    vec.inv (vec.mapData v f) := by
  unfold vec.inv vec.mapData at *
  simpa [Option.isNone_map'] using h

theorem vec.inv_condMap {α : Type} {v : vec α}
    (f : List (Option α) → List (Option α)) (h : vec.inv v) :
    vec.inv (if v.valid then vec.mapData v f else v) := by
  split
  · exact vec.inv_mapData f h
  · exact h

/-- C1: the claim says every `vec<T>` factory signals allocation failure
by returning the invalid sentinel.  The code does not: on failure the
delegating constructor builds `{size_ = n, data_ = nullptr}` with
`n > 0`, which violates the constructor's own assertion
`!!size_ == !!data_ || size_ == invalid_size` (so the factory aborts
rather than returning anything), and in an `NDEBUG` build the kept raw
state is truthy — `operator bool` is `true` — and distinct from the
sentinel.  Evaluated here at `make_uninitialized(4)` / `make(4, init)`
under a failed allocation (the no-throw part of the claim does hold:
the source allocates with `new(std::nothrow)`). -/
theorem C1_factory_alloc_failure_not_sentinel :
    vecPtr.make_uninitialized false 4 = none ∧
    vec.make false 4 ([none, none, none, none] : List Ptr) = none ∧
    vec.allocate Ptr false 4 = none ∧
    vec.valid (vec.mkRaw 4 (none : Option (List RCell))) = true ∧
    vec.mkRaw 4 (none : Option (List RCell)) ≠ vec.invalid Ptr := by
  decide

/-- C2: `Val::release_ref` nulls a local copy of the handle, not the
stored field: on a reference-kind `Val` it returns a null owned handle
and leaves the `Val` (in particular its stored `impl_.ref`) unchanged,
so no ownership is transferred out. -/
theorem C2_release_ref_nulls_local_copy (v : Val) (h : is_ref v.kind_ = true) :
    Val.release_ref v = some (none, v) := by
  simp [Val.release_ref, h]

theorem C2_release_ref_nulls_local_copy_w :
    is_ref (Val.ofRef (some 3)).kind_ = true ∧
    Val.release_ref (Val.ofRef (some 3)) = some (none, Val.ofRef (some 3)) :=
  ⟨by decide, C2_release_ref_nulls_local_copy (Val.ofRef (some 3)) (by decide)⟩

/-- C3: the claim says every null source slot is null in the copy.  It
is not: `vec::copy` builds the destination with the private `vec(size_)`
constructor, which never runs `vec_traits<T*>::construct`, and
`vec_traits<T*>::copy` skips null source slots, so the corresponding
destination cell stays default-initialized (indeterminate), not null.
Evaluated at the one-element vector with a null slot (itself produced by
`make_uninitialized(1)`): the copy's only cell is the indeterminate
cell `none`, which differs from the null-pointer cell `some none`. -/
theorem C3_copy_null_slot_left_uninitialized :
    vecPtr.make_uninitialized true 1 = some ⟨1, some [some none]⟩ ∧
    vecPtr.copy true ⟨0, []⟩ ⟨1, some [some none]⟩ =
      some (⟨1, some [none]⟩, ⟨0, []⟩) ∧
    ((none : RCell) ≠ some none) := by
  decide

/-- C6: `invalid()` converts to `false`, while `make_uninitialized(0)`
(whatever the allocation oracle says — a zero size allocates nothing)
yields a valid vector of size 0, distinguishable from the sentinel. -/
theorem C6_invalid_vs_empty :
    vec.valid (vec.invalid Ptr) = false ∧
    vec.valid (vec.invalid Nat) = false ∧
    vecPtr.make_uninitialized true 0 = some ⟨0, none⟩ ∧
    vecPtr.make_uninitialized false 0 = some ⟨0, none⟩ ∧
    vec.make_uninitialized true 0 = some (⟨0, none⟩ : vec Nat) ∧
    vec.make_uninitialized false 0 = some (⟨0, none⟩ : vec Nat) ∧
    vec.valid (⟨0, none⟩ : vecPtr) = true ∧ vec.size (⟨0, none⟩ : vecPtr) = 0 ∧
    vec.valid (⟨0, none⟩ : vec Nat) = true ∧ vec.size (⟨0, none⟩ : vec Nat) = 0 ∧
    vec.invalid Ptr ≠ (⟨0, none⟩ : vecPtr) := by
  decide

/-- C4 counterexample: the claim quantifies over every vector reachable
through the public operations, explicitly including move-construction;
but the moved-from source of a move-construction keeps its old nonzero
`size_` while its `data_` is released, so it violates
`size == 0 iff data empty` without being the invalid sentinel.  Concretely:
move-constructing from `make_uninitialized(1)` leaves the source as
`{size_ = 1, data_ = nullptr}`. -/
theorem C4_cx_moved_from_source_violates_invariant :
    vecPtr.make_uninitialized true 1 = some ⟨1, some [some none]⟩ ∧
    (vec.moveCtor (⟨1, some [some none]⟩ : vecPtr)).2 = ⟨1, none⟩ ∧
    ¬ vec.inv (⟨1, (none : Option (List RCell))⟩ : vecPtr) := by
  decide

/-- C4 (amended): every vector the public operations return satisfies
the invariant — `size == 0` iff `data` empty, except the invalid
sentinel, whose `data` is empty regardless (for `adopt`, under the
physical contract that a sentinel-sized adopt passes no data block,
since a block of `SIZE_MAX` elements cannot exist); the moved-from
sources of move-construction, move-assignment and reset are the
exception: their `data_` is always released (empty) but their `size_`
keeps its old value.  The variadic `make(args...)` merely forwards to
`make(n, init)`. -/
theorem C4_invariant_of_public_ops :
    ∀ α : Type,
    (∀ (ok : Bool) (n : Nat) (v : vec α),
        vec.make_uninitialized ok n = some v → vec.inv v) ∧
    (∀ (ok : Bool) (n : Nat) (v : vecPtr),
        vecPtr.make_uninitialized ok n = some v → vec.inv v) ∧
    (∀ (ok : Bool) (n : Nat) (init : List α) (v : vec α),
        vec.make ok n init = some v → vec.inv v) ∧
    (∀ (n : Nat) (d : Option (List (Option α))) (v : vec α),
        (n = invalid_size → d = none) → vec.adopt n d = some v → vec.inv v) ∧
    vec.inv (vec.invalid α) ∧
    (∀ (that v : vec α), vec.inv that → (vec.moveCtor that).1 = some v →
        vec.inv v ∧ ((vec.moveCtor that).2).data_ = none) ∧
    (∀ (u that : vec α), vec.inv that →
        vec.inv (vec.resetFrom u that).1 ∧ ((vec.resetFrom u that).2).data_ = none) := by
  intro α
  refine ⟨?_, ?_, ?_, ?_, ?_, ?_, ?_⟩
  · intro ok n v h
    exact vec.inv_of_mkAlloc h
  · intro ok n v h
    unfold vecPtr.make_uninitialized at h
    obtain ⟨w, hw, hv⟩ := Option.map_eq_some'.mp h
    subst hv
    exact vec.inv_condMap _ (vec.inv_of_mkAlloc hw)
  · intro ok n init v h
    unfold vec.make at h
    obtain ⟨w, hw, hv⟩ := Option.map_eq_some'.mp h
    subst hv
    exact vec.inv_condMap _ (vec.inv_of_mkAlloc hw)
  · intro n d v hphys h
    unfold vec.adopt vec.mkChecked at h
    by_cases hs : n = invalid_size
    · subst hs
      rw [hphys rfl] at h
      simp at h
      subst h
      simp [vec.inv]
    · split at h
      · rename_i hcond
        injection h with h
        subst h
        unfold vec.inv
        rw [if_neg hs]
        rcases hcond with hiff | hbad
        · cases d <;> simp_all
        · exact absurd hbad hs
      · exact Option.noConfusion h
  · simp [vec.inv, vec.invalid]
  · intro that v hinv h
    have h' : vec.mkChecked that.size_ that.data_ = some v := h
    unfold vec.mkChecked at h'
    split at h'
    · injection h' with h'
      subst h'
      exact ⟨hinv, rfl⟩
    · exact Option.noConfusion h'
  · intro u that hinv
    exact ⟨hinv, rfl⟩

theorem C4_invariant_of_public_ops_w :
    vec.inv (⟨0, (none : Option (List (Option Nat)))⟩ : vec Nat) ∧
    (vec.inv (vec.invalid Nat) ∧ ((vec.moveCtor (vec.invalid Nat)).2).data_ = none) :=
  ⟨(C4_invariant_of_public_ops Nat).1 true 0 ⟨0, none⟩ (by decide),
   (C4_invariant_of_public_ops Nat).2.2.2.2.2.1 (vec.invalid Nat) (vec.invalid Nat)
     (by decide) (by decide)⟩

/-- C5: for every feasible `n` (an allocation of `SIZE_MAX` elements
cannot succeed), `make_uninitialized(n)` under a successful allocation
is valid, has size `n`, and — this being the owned-pointer element
kind — every one of its `n` slots is null. -/
theorem C5_make_uninitialized_null_slots (n : Nat) (h : n < invalid_size) :
    ∃ v : vecPtr, vecPtr.make_uninitialized true n = some v ∧
      vec.valid v = true ∧ vec.size v = n ∧
      ∀ i, i < n → vec.slot v i = some (some none) := by
  have hns : n ≠ invalid_size := Nat.ne_of_lt h
  by_cases hn : n = 0
  · subst hn
    refine ⟨⟨0, none⟩, by decide, by decide, by decide, ?_⟩
    intro i hi
    omega
  · refine ⟨⟨n, some (List.replicate n (some none))⟩, ?_, ?_, rfl, ?_⟩
    · unfold vecPtr.make_uninitialized vec.mkAlloc vec.mkChecked vec.allocate
      simp [hn, h, hns, vec.valid, vec.mapData, vecPtr.construct, List.map_replicate]
    · simp [vec.valid, hns]
    · intro i hi
      simp [vec.slot, List.get?_eq_getElem?, List.getElem?_replicate, hi]

theorem C5_make_uninitialized_null_slots_w :
    (2 < invalid_size) ∧
    ∃ v : vecPtr, vecPtr.make_uninitialized true 2 = some v ∧
      vec.valid v = true ∧ vec.size v = 2 ∧
      ∀ i, i < 2 → vec.slot v i = some (some none) :=
  ⟨by decide, C5_make_uninitialized_null_slots 2 (by decide)⟩

/-- C7: moving a reference-kind `Val` (move construction, or move
assignment into any `Val` that does not already own the same handle)
copies the tag and payload to the destination and nulls the source's
stored handle, so destructing both source and destination deletes the
underlying object exactly once. -/
theorem C7_move_ref_deletes_once (v t : Val) (a : Addr)
    (hk : is_ref v.kind_ = true) (hi : v.impl_ = ValImpl.ref (some a))
    (ht : (Val.destruct t).count a = 0) :
    (Val.moveCtor v).1 = v ∧
    Val.destruct (Val.moveCtor v).2 = [] ∧
    Val.destruct (Val.moveCtor v).1 = [a] ∧
    (Val.resetFrom t v).1 = v ∧
    Val.destruct (Val.resetFrom t v).2.1 = [] ∧
    (((Val.resetFrom t v).2.2 ++ Val.destruct (Val.resetFrom t v).2.1) ++
        Val.destruct (Val.resetFrom t v).1).count a = 1 := by
  obtain ⟨k, i⟩ := v
  simp only [] at hk hi
  subst hi
  refine ⟨?_, ?_, ?_, ?_, ?_, ?_⟩
  · simp [Val.moveCtor, hk]
  · simp [Val.moveCtor, hk, Val.destruct, Val.reset]
  · simp [Val.moveCtor, hk, Val.destruct, Val.reset]
  · simp [Val.resetFrom, hk]
  · simp [Val.resetFrom, hk, Val.destruct, Val.reset]
  · have h1 : (Val.resetFrom t ⟨k, ValImpl.ref (some a)⟩).2.2 = Val.destruct t := by
      simp [Val.resetFrom, hk, Val.destruct]
    have h2 : Val.destruct (Val.resetFrom t ⟨k, ValImpl.ref (some a)⟩).2.1 = [] := by
      simp [Val.resetFrom, hk, Val.destruct, Val.reset]
    have h3 : Val.destruct (Val.resetFrom t ⟨k, ValImpl.ref (some a)⟩).1 = [a] := by
      simp [Val.resetFrom, hk, Val.destruct, Val.reset]
    rw [h1, h2, h3]
    simp [List.count_append, ht]

theorem C7_move_ref_deletes_once_w :
    is_ref (Val.ofRef (some 7)).kind_ = true ∧
    (Val.ofRef (some 7)).impl_ = ValImpl.ref (some 7) ∧
    (Val.destruct (Val.ofI32 0)).count 7 = 0 ∧
    Val.destruct (Val.moveCtor (Val.ofRef (some 7))).1 = [7] :=
  ⟨by decide, by decide, by decide,
   (C7_move_ref_deletes_once (Val.ofRef (some 7)) (Val.ofI32 0) 7
      (by decide) (by decide) (by decide)).2.2.1⟩

/-- C8: assigning an owned handle through the element proxy
(`operator=` forwards to `reset`) deletes exactly the object the slot
previously owned, installs the new handle in that slot, and changes no
other slot; `release` (and `move`, which wraps it) hands the slot's
object back to the caller, leaves the slot null, deletes nothing, and
changes no other slot. -/
theorem C8_proxy_reset_release (v : vecPtr) (cells : List RCell) (i : Nat)
    (old val : Ptr)
    (hd : v.data_ = some cells) (hs : cells.get? i = some (some old)) :
    vecPtr.proxyResetAt v i val =
      some (⟨v.size_, some (cells.set i (some val))⟩, old.toList) ∧
    (cells.set i (some val)).get? i = some (some val) ∧
    (∀ j, j ≠ i → (cells.set i (some val)).get? j = cells.get? j) ∧
    vecPtr.proxyReleaseAt v i =
      some (old, ⟨v.size_, some (cells.set i (some none))⟩) ∧
    (cells.set i (some none)).get? i = some (some none) ∧
    (∀ j, j ≠ i → (cells.set i (some none)).get? j = cells.get? j) ∧
    vecPtr.proxyMoveAt v i = vecPtr.proxyReleaseAt v i := by
  have hlen : i < cells.length := (List.get?_eq_some.mp hs).1
  refine ⟨?_, ?_, ?_, ?_, ?_, ?_, rfl⟩
  · unfold vecPtr.proxyResetAt
    simp only [hd, hs]
    cases old <;> rfl
  · exact List.get?_set_eq_of_lt _ hlen
  · intro j hj
    exact List.get?_set_ne _ _ (Ne.symm hj)
  · unfold vecPtr.proxyReleaseAt
    simp only [hd, hs]
  · exact List.get?_set_eq_of_lt _ hlen
  · intro j hj
    exact List.get?_set_ne _ _ (Ne.symm hj)

theorem C8_proxy_reset_release_w :
    ((⟨2, some [some (some 5), some none]⟩ : vecPtr).data_ =
        some [some (some 5), some none]) ∧
    (([some (some 5), some none] : List RCell).get? 0 = some (some (some 5))) ∧
    vecPtr.proxyResetAt ⟨2, some [some (some 5), some none]⟩ 0 (some 9) =
      some (⟨2, some [some (some 9), some none]⟩, [5]) ∧
    vecPtr.proxyReleaseAt ⟨2, some [some (some 5), some none]⟩ 0 =
      some (some 5, ⟨2, some [some none, some none]⟩) :=
  ⟨rfl, rfl,
   (C8_proxy_reset_release ⟨2, some [some (some 5), some none]⟩
      [some (some 5), some none] 0 (some 5) (some 9) rfl rfl).1,
   (C8_proxy_reset_release ⟨2, some [some (some 5), some none]⟩
      [some (some 5), some none] 0 (some 5) (some 9) rfl rfl).2.2.2.1⟩

/-- C9: each payload accessor checks (asserts) that the stored kind
matches its tag and, the check passed, returns exactly the stored
payload of that kind; on a mismatched kind it yields no value (the
assertion fires — a contract violation, not a recoverable error). -/
theorem C9_accessors_assert_and_return (v : Val) (x y : Int) (z w : Nat)
    (r : Option Addr) :
    (Val.i32 v = some x ↔ v.kind_ = ValKind.I32 ∧ v.impl_ = ValImpl.i32 x) ∧
    (Val.i64 v = some y ↔ v.kind_ = ValKind.I64 ∧ v.impl_ = ValImpl.i64 y) ∧
    (Val.f32 v = some z ↔ v.kind_ = ValKind.F32 ∧ v.impl_ = ValImpl.f32 z) ∧
    (Val.f64 v = some w ↔ v.kind_ = ValKind.F64 ∧ v.impl_ = ValImpl.f64 w) ∧
    (Val.ref v = some r ↔ is_ref v.kind_ = true ∧ v.impl_ = ValImpl.ref r) ∧
    (v.kind_ ≠ ValKind.I32 → Val.i32 v = none) ∧
    (v.kind_ ≠ ValKind.I64 → Val.i64 v = none) ∧
    (v.kind_ ≠ ValKind.F32 → Val.f32 v = none) ∧
    (v.kind_ ≠ ValKind.F64 → Val.f64 v = none) ∧
    (is_ref v.kind_ = false → Val.ref v = none) := by
  obtain ⟨k, i⟩ := v
  cases k <;> cases i <;>
    simp [Val.i32, Val.i64, Val.f32, Val.f64, Val.ref, is_ref, ValKind.toNat]

theorem C9_accessors_assert_and_return_w :
    Val.i32 (Val.ofI32 5) = some 5 ∧ Val.i64 (Val.ofI32 5) = none :=
  ⟨((C9_accessors_assert_and_return (Val.ofI32 5) 5 0 0 0 none).1).mpr (by decide),
   (C9_accessors_assert_and_return (Val.ofI32 5) 5 0 0 0 none).2.2.2.2.2.2.1
     (by decide)⟩

/-- C10: a default-constructed `Val` has kind `ANYREF` (a reference
kind) with a null reference payload: `ref()` passes its assertion and
returns null, and `reset()` (hence the destructor) deletes nothing and
leaves the value unchanged. -/
theorem C10_default_val :
    Val.default.kind_ = ValKind.ANYREF ∧
    is_ref Val.default.kind_ = true ∧
    Val.ref Val.default = some none ∧
    Val.destruct Val.default = [] ∧
    Val.reset Val.default = (Val.default, []) := by
  decide

end Wasm
